import Mathlib

/-!
Shallow embedding of `src/voice/scripts/tts.py` (ElevenLabs TTS script).

Conventions of the embedding:
* Python dicts that act as string-keyed maps become association lists
  (`List (String × _)`) with a first-match lookup, mirroring dict lookup.
* Environment variables and the contents of config files are passed in as
  explicit parameters (they are the ambient state the script reads).
* `sys.exit(1)` and uncaught exceptions are modelled as distinguished
  constructors of the result types.
* Bytes of an HTTP body are modelled as `List Nat`.
* Floating point synthesis settings carry only literal constants and are
  never computed with, so they are modelled as `Rat`.
-/

set_option autoImplicit false

/-! ### Small string helpers used by the embedding

Python string primitives (`strip`, slicing, `startswith`) are modelled on
`List Char` so that everything reduces in the kernel. -/

/-- Drop characters satisfying `p` from both ends of a string
(Python's `str.strip` family). -/
def dropEnds (p : Char → Bool) (s : String) : String :=
  (((s.toList.dropWhile p).reverse.dropWhile p).reverse).asString

/-- Python `str.strip()` (whitespace from both ends). -/
def pyStrip (s : String) : String :=
  dropEnds Char.isWhitespace s

/-- Python `str.strip('"\'')`: remove double and single quotes from both ends. -/
def stripQuotes (s : String) : String :=
  dropEnds (fun c => c == Char.ofNat 34 || c == Char.ofNat 39) s

/-- Python slicing `s[:n]`. -/
def takeStr (n : Nat) (s : String) : String :=
  (s.toList.take n).asString

/-- Python slicing `s[n:]`. -/
def dropStr (n : Nat) (s : String) : String :=
  (s.toList.drop n).asString

/-- Python `s.startswith(pre)`. -/
def startsWithStr (pre s : String) : Bool :=
  pre.toList.isPrefixOf s.toList

/-- First-match lookup in an association list: the model of a Python dict
access `d.get(k)` / `k in d`. -/
def lookupStr {α : Type} : List (String × α) → String → Option α
  | [], _ => none
  | (k, v) :: rest, key => if k = key then some v else lookupStr rest key

/-! ### Credential resolver: `get_api_key` (tts.py lines 36-71) -/

/-- Python `a or b` on the results of `os.environ.get`: an empty string is
falsy, so it falls through to `b`. -/
def pyOr (a b : Option String) : Option String :=
  match a with
  | some s => if s = "" then b else some s
  | none => b

/-- Python truthiness of an optional string (`if api_key:`). -/
def truthyOpt : Option String → Bool
  | some s => if s = "" then false else true
  | none => false

/-- State of one candidate Clawdbot config file, as `get_api_key` observes it:
the file may be absent, raise during read/parse (silently skipped by the
`except: continue`), or parse to a document whose nested
`tts.elevenlabs.apiKey` field is present or missing. -/
inductive CfgFileState where
  | absent
  | readError
  | parsed (apiKey : Option String)
deriving DecidableEq

/-- The value `get_api_key` extracts from one config file: only a present,
truthy (non-empty) `apiKey` makes it return; everything else continues the
loop. -/
def cfgKey : CfgFileState → Option String
  | .parsed (some k) => if k = "" then none else some k
  | _ => none

/-- Scan of the `.env` file lines (tts.py lines 62-64): the first line that
starts with `ELEVEN_API_KEY=` is returned unconditionally, with the part
after the first `=` stripped of whitespace and then of quotes. -/
def envLookup : List String → Option String
  | [] => none
  | l :: rest =>
    if startsWithStr "ELEVEN_API_KEY=" l then
      some (stripQuotes (pyStrip (dropStr 15 l)))
    else
      envLookup rest

/-- The five lines printed by `get_api_key` before `sys.exit(1)`. -/
def missingKeyMsgs : List String :=
  ["❌ No ElevenLabs API key found.",
   "   Options:",
   "   1. Set ELEVEN_API_KEY environment variable",
   "   2. Configure in Clawdbot (tts.elevenlabs.apiKey)",
   "   3. Create .env file in skill directory"]

/-- Result of `get_api_key`: either a credential string is returned, or the
process prints guidance and exits with status 1. -/
inductive KeyResult where
  | found (key : String)
  | missingExit (printed : List String)
deriving DecidableEq

/-- The `.env` step of `get_api_key` (reached when env vars and both config
files produced nothing truthy). `none` models an absent `.env` file. -/
def fromEnvFile : Option (List String) → KeyResult
  | some lines =>
    match envLookup lines with
    | some v => .found v
    | none => .missingExit missingKeyMsgs
  | none => .missingExit missingKeyMsgs

/-- The config-file loop of `get_api_key` followed by the `.env` step. -/
def afterEnvVars (homeCfg rootCfg : CfgFileState) (envFile : Option (List String)) : KeyResult :=
  match cfgKey homeCfg with
  | some k => .found k
  | none =>
    match cfgKey rootCfg with
    | some k => .found k
    | none => fromEnvFile envFile

/-- `get_api_key` (tts.py lines 36-71). Parameters are the ambient state it
reads: the two environment variables `ELEVEN_API_KEY` and
`ELEVENLABS_API_KEY`, the per-user config file `~/.clawdbot/clawdbot.json`,
the fixed `/root/.clawdbot/clawdbot.json`, and the lines of the skill-local
`.env` file. -/
def get_api_key (envEleven envElevenLabs : Option String)
    (homeCfg rootCfg : CfgFileState) (envFile : Option (List String)) : KeyResult :=
  match pyOr envEleven envElevenLabs with
  | some k => if k = "" then afterEnvVars homeCfg rootCfg envFile else .found k
  | none => afterEnvVars homeCfg rootCfg envFile

/-! ### Voice configuration model (voices.json as `synthesize` reads it) -/

/-- The per-voice `settings` object; each field may be absent
(`settings.get(...)` then falls back to a default). -/
structure Settings where
  stability : Option Rat
  similarity_boost : Option Rat
  style : Option Rat
deriving DecidableEq

/-- One entry of the `voices` mapping. Only the fields `synthesize` and
`test_voices` read are modelled: `voice_id` (accessed with `[...]`, so
mandatory), `language` (accessed with `.get`, so optional) and `settings`
(`voice.get("settings", {})`; an absent object is the all-absent one). -/
structure Voice where
  voice_id : String
  language : Option String
  settings : Settings
deriving DecidableEq

/-- The loaded voices.json document: the `voices` and `presets` mappings
(each read with `voices_data.get(..., {})`). -/
structure VoicesData where
  voices : List (String × Voice)
  presets : List (String × String)
deriving DecidableEq

/-! ### Voice resolution inside `synthesize` (tts.py lines 91-103) -/

/-- Outcome of lines 93-103 of `synthesize`: the name is found directly, or
it is a preset redirecting to a present voice, or it is in neither mapping
(reported, returns `False`), or it is a preset whose target is missing —
in which case line 103 `voices[voice_name]` raises an uncaught `KeyError`. -/
inductive ResolveResult where
  | notFound
  | keyErrorCrash (missing : String)
  | found (name : String) (v : Voice)
deriving DecidableEq

/-- Voice-name resolution of `synthesize`: check `voices`, then follow one
preset redirection, then index `voices` with the (possibly redirected) name. -/
def resolveVoice (vd : VoicesData) (voice_name : String) : ResolveResult :=
  match lookupStr vd.voices voice_name with
  | some v => .found voice_name v
  | none =>
    match lookupStr vd.presets voice_name with
    | none => .notFound
    | some target =>
      match lookupStr vd.voices target with
      | some v => .found target v
      | none => .keyErrorCrash target

/-! ### Request construction (tts.py lines 107-126) -/

/-- `API_URL` constant of tts.py. -/
def API_URL : String := "https://api.elevenlabs.io/v1/text-to-speech"

/-- The `voice_settings` object of the request payload. -/
structure VoiceSettingsBody where
  stability : Rat
  similarity_boost : Rat
  style : Rat
  use_speaker_boost : Bool
deriving DecidableEq

/-- The JSON request payload of a synthesis call. -/
structure Payload where
  text : String
  model_id : String
  voice_settings : VoiceSettingsBody
deriving DecidableEq

/-- Payload construction (tts.py lines 114-123): settings fields default to
0.75, 0.75 and 0.5; `use_speaker_boost` is always true. -/
def buildPayload (text : String) (settings : Settings) : Payload :=
  { text := text
    model_id := "eleven_multilingual_v2"
    voice_settings :=
      { stability := settings.stability.getD 0.75
        similarity_boost := settings.similarity_boost.getD 0.75
        style := settings.style.getD 0.5
        use_speaker_boost := true } }

/-- One HTTP POST request as `synthesize` issues it (tts.py lines 108-126). -/
structure HttpRequest where
  url : String
  headers : List (String × String)
  payload : Payload
deriving DecidableEq

/-- The single request of a synthesis call: endpoint suffixed with the voice
id, the three fixed headers, and the JSON payload. -/
def buildRequest (api_key : String) (voice_id : String) (payload : Payload) : HttpRequest :=
  { url := API_URL ++ "/" ++ voice_id
    headers :=
      [("xi-api-key", api_key),
       ("Content-Type", "application/json"),
       ("Accept", "audio/mpeg")]
    payload := payload }

/-! ### HTTP response model and the body of `synthesize` (tts.py 128-145) -/

/-- What the one `urllib.request.urlopen` call can produce: a 2xx response
with a byte body, an `HTTPError` with a status code and an optional error
body (`e.read() if e.fp else ""`), or a transport-level `URLError`. -/
inductive HttpResponse where
  | success (body : List Nat)
  | httpError (code : Nat) (body : Option String)
  | urlError (reason : String)
deriving DecidableEq

/-- Observable behaviour of one `synthesize` call: its boolean return value
(`none` models an uncaught exception escaping the function), the lines it
printed, the bytes it wrote to `output_path` (`none` = file untouched), and
the HTTP requests it issued. -/
structure SynthOutput where
  returnValue : Option Bool
  printed : List String
  fileWritten : Option (List Nat)
  requests : List HttpRequest
deriving DecidableEq

/-- Python `f"{x:.1f}"` applied to `len/1024` rounds the exact value
`len/1024` (representable exactly in binary floating point) to one decimal
place, ties to even. `roundHalfEven num den` is that rounding of `num/den`
to the nearest integer. -/
def roundHalfEven (num den : Nat) : Nat :=
  if 2 * (num % den) < den then num / den
  else if den < 2 * (num % den) then num / den + 1
  else if (num / den) % 2 = 0 then num / den else num / den + 1

/-- Tenths of a kilobyte reported for a body of `len` bytes:
`len/1024` rounded to one decimal place, times ten. -/
def kbTenths (len : Nat) : Nat := roundHalfEven (len * 10) 1024

/-- The `.1f`-formatted kilobyte count of tts.py line 136. -/
def formatKB (len : Nat) : String :=
  toString (kbTenths len / 10) ++ "." ++ toString (kbTenths len % 10)

/-- A single-quote character as a string (for the printed messages). -/
def singleQuote : String := String.singleton (Char.ofNat 39)

/-- tts.py line 99. -/
def voiceNotFoundMsg (voice_name : String) : String :=
  "❌ Voice " ++ singleQuote ++ voice_name ++ singleQuote ++ " not found."

/-- tts.py line 100: the comma-separated list of valid voice names. -/
def availableMsg (vd : VoicesData) : String :=
  "   Available: " ++ String.intercalate ", " (vd.voices.map Prod.fst)

/-- tts.py line 136. -/
def savedMsg (output_path : String) (len : Nat) : String :=
  "✅ Saved: " ++ output_path ++ " (" ++ formatKB len ++ " KB)"

/-- tts.py line 141: status code and error body truncated to 200 characters. -/
def apiErrorMsg (code : Nat) (body : String) : String :=
  "❌ API Error (" ++ toString code ++ "): " ++ takeStr 200 body

/-- tts.py line 144. -/
def networkErrorMsg (reason : String) : String :=
  "❌ Network Error: " ++ reason

/-- `synthesize` (tts.py lines 89-145), with the outcome of its one network
call passed in as `response`. -/
def synthesize (text voice_name output_path : String) (vd : VoicesData)
    (api_key : String) (response : HttpResponse) : SynthOutput :=
  match resolveVoice vd voice_name with
  | .notFound =>
    { returnValue := some false
      printed := [voiceNotFoundMsg voice_name, availableMsg vd]
      fileWritten := none
      requests := [] }
  | .keyErrorCrash _ =>
    { returnValue := none
      printed := []
      fileWritten := none
      requests := [] }
  | .found _ v =>
    let req := buildRequest api_key v.voice_id (buildPayload text v.settings)
    match response with
    | .success body =>
      { returnValue := some true
        printed := [savedMsg output_path body.length]
        fileWritten := some body
        requests := [req] }
    | .httpError code errBody =>
      { returnValue := some false
        printed := [apiErrorMsg code (errBody.getD "")]
        fileWritten := none
        requests := [req] }
    | .urlError reason =>
      { returnValue := some false
        printed := [networkErrorMsg reason]
        fileWritten := none
        requests := [req] }

/-- Content of the output file after a `synthesize` call, given its content
before the call (`none` = the file did not exist). -/
def fileAfter (prior : Option (List Nat)) (out : SynthOutput) : Option (List Nat) :=
  match out.fileWritten with
  | some b => some b
  | none => prior

/-! ### Batch tester: `test_voices` (tts.py lines 148-179) -/

/-- The canned sample sentences of tts.py lines 154-160, keyed by two-letter
language code. -/
def test_texts : List (String × String) :=
  [("en", "Hello! This is a test of the ElevenLabs voice synthesis."),
   ("de", "Hallo! Dies ist ein Test der ElevenLabs Sprachsynthese."),
   ("es", "¡Hola! Esta es una prueba de la síntesis de voz de ElevenLabs."),
   ("fr", "Bonjour! Ceci est un test de la synthèse vocale ElevenLabs."),
   ("it", "Ciao! Questo è un test della sintesi vocale ElevenLabs.")]

/-- The English sample sentence, `test_texts["en"]` (line 169's fallback). -/
def englishSample : String :=
  "Hello! This is a test of the ElevenLabs voice synthesis."

/-- tts.py line 168: `v.get("language", "en-US")[:2]`. -/
def langCode (v : Voice) : String :=
  takeStr 2 (v.language.getD "en-US")

/-- tts.py line 169: `test_texts.get(lang, test_texts["en"])`. -/
def sampleSentence (v : Voice) : String :=
  (lookupStr test_texts (langCode v)).getD englishSample

/-- Accumulated observable state of the `test_voices` loop: the
`(text, voice_name, output_path)` triple of each `synthesize` invocation in
order, and the success/failure counters. -/
structure TestState where
  calls : List (String × String × String)
  success : Nat
  failed : Nat
deriving DecidableEq

/-- The summary line printed at tts.py line 178. -/
def summaryLine (success failed : Nat) : String :=
  "✅ Success: " ++ toString success ++ ", ❌ Failed: " ++ toString failed

/-- The `for name, v in voices.items()` loop of `test_voices`. `responses`
gives the outcome of the network call made for each voice name. An uncaught
exception escaping `synthesize` would propagate and abort the loop; that is
the `none` result. -/
def runVoices (vd : VoicesData) (api_key : String) (responses : String → HttpResponse) :
    List (String × Voice) → TestState → Option TestState
  | [], st => some st
  | (name, v) :: rest, st =>
    let text := sampleSentence v
    let output := "samples/" ++ name ++ ".mp3"
    match (synthesize text name output vd api_key (responses name)).returnValue with
    | none => none
    | some true =>
      runVoices vd api_key responses rest
        { calls := st.calls ++ [(text, name, output)]
          success := st.success + 1
          failed := st.failed }
    | some false =>
      runVoices vd api_key responses rest
        { calls := st.calls ++ [(text, name, output)]
          success := st.success
          failed := st.failed + 1 }

/-- `test_voices` (tts.py lines 148-179): run the loop over all configured
voices starting from zero counters and finish with the printed summary line. -/
def test_voices (vd : VoicesData) (api_key : String) (responses : String → HttpResponse) :
    Option (TestState × String) :=
  (runVoices vd api_key responses vd.voices ⟨[], 0, 0⟩).map
    (fun st => (st, summaryLine st.success st.failed))

/-- Whether an HTTP response makes `synthesize` succeed (for a voice that
resolves). -/
def respOk : HttpResponse → Bool
  | .success _ => true
  | _ => false

/-! ### Shared example configurations used by witnesses and counterexamples -/

/-- The voice of the spec's worked example: voice id `v1`, language `en-US`,
empty settings object. -/
def demoRachel : Voice :=
  { voice_id := "v1", language := some "en-US", settings := ⟨none, none, none⟩ }

/-- The spec's worked example config:
`{"voices": {"rachel": {...}}, "presets": {"default": "rachel"}}`. -/
def demoVoices : VoicesData :=
  { voices := [("rachel", demoRachel)], presets := [("default", "rachel")] }

/-- A config whose preset `narrator` redirects to the missing voice `ghost`. -/
def c1Voices : VoicesData :=
  { voices := [("rachel", ⟨"v1", some "en-US", ⟨none, none, none⟩⟩)]
    presets := [("narrator", "ghost")] }

/-- A config where `dual` is both a voice and a preset alias for `other`. -/
def c9Voices : VoicesData :=
  { voices := [("dual", ⟨"vd1", some "en-US", ⟨none, none, none⟩⟩),
               ("other", ⟨"vd2", some "de-DE", ⟨none, none, none⟩⟩)]
    presets := [("dual", "other")] }

/-- A voice with a language for which no canned sample exists. -/
def demoPolish : Voice :=
  { voice_id := "v7", language := some "pl-PL", settings := ⟨none, none, none⟩ }

/-! ### Helper lemmas -/

theorem resolveVoice_of_lookup (vd : VoicesData) (name : String) (v : Voice)
    (hv : lookupStr vd.voices name = some v) :
    resolveVoice vd name = .found name v := by
  simp [resolveVoice, hv]

theorem requests_of_found (t name o : String) (vd : VoicesData) (k : String)
    (resp : HttpResponse) (rn : String) (v : Voice)
    (h : resolveVoice vd name = .found rn v) :
    (synthesize t name o vd k resp).requests =
      [buildRequest k v.voice_id (buildPayload t v.settings)] := by
  cases resp <;> simp [synthesize, h]

theorem returnValue_of_lookup (t name o : String) (vd : VoicesData) (k : String)
    (resp : HttpResponse) (v : Voice) (hv : lookupStr vd.voices name = some v) :
    (synthesize t name o vd k resp).returnValue = some (respOk resp) := by
  cases resp <;> simp [synthesize, resolveVoice_of_lookup vd name v hv, respOk]

theorem kbTenths_le_bounds (n : Nat) :
    n * 10 ≤ 1024 * kbTenths n + 512 ∧ 1024 * kbTenths n ≤ n * 10 + 512 := by
  unfold kbTenths roundHalfEven
  split_ifs <;> omega

theorem lookupStr_isSome_of_mem {α : Type} (l : List (String × α)) (p : String × α)
    (hp : p ∈ l) : (lookupStr l p.1).isSome = true := by
  induction l with
  | nil => cases hp
  | cons q rest ih =>
    obtain ⟨qk, qv⟩ := q
    rw [List.mem_cons] at hp
    unfold lookupStr
    by_cases h : qk = p.1
    · simp [h]
    · simp only [h, if_false]
      rcases hp with h1 | h2
      · subst h1
        simp at h
      · exact ih h2

theorem countP_add_countP_not {α : Type} (p : α → Bool) (l : List α) :
    l.countP p + l.countP (fun a => !p a) = l.length := by
  induction l with
  | nil => simp
  | cons a l ih =>
    by_cases h : p a = true <;> simp [List.countP_cons, h] <;> omega

theorem runVoices_spec (vd : VoicesData) (k : String) (rs : String → HttpResponse)
    (l : List (String × Voice)) (st : TestState)
    (h : ∀ p ∈ l, (lookupStr vd.voices p.1).isSome = true) :
    runVoices vd k rs l st = some
      { calls := st.calls ++
          l.map (fun p => (sampleSentence p.2, p.1, "samples/" ++ p.1 ++ ".mp3"))
        success := st.success + l.countP (fun p => respOk (rs p.1))
        failed := st.failed + l.countP (fun p => !respOk (rs p.1)) } := by
  induction l generalizing st with
  | nil => simp [runVoices]
  | cons q rest ih =>
    obtain ⟨name, v⟩ := q
    have hs := h ⟨name, v⟩ (List.mem_cons_self _ _)
    rw [Option.isSome_iff_exists] at hs
    obtain ⟨v', hv'⟩ := hs
    have hret := returnValue_of_lookup (sampleSentence v) name ("samples/" ++ name ++ ".mp3")
      vd k (rs name) v' hv'
    have hrest : ∀ p ∈ rest, (lookupStr vd.voices p.1).isSome = true :=
      fun p hp => h p (List.mem_cons_of_mem _ hp)
    simp only [runVoices]
    rw [hret]
    cases hok : respOk (rs name)
    · simp only []
      rw [ih _ hrest]
      simp [List.countP_cons, hok, List.append_assoc]
      omega
    · simp only []
      rw [ih _ hrest]
      simp [List.countP_cons, hok, List.append_assoc]
      omega

/-! ### Claim theorems -/

/-- Claim C1 (amended): a preset alias whose target name is absent from the
voices mapping does NOT surface as a reported "voice not found" failure —
line 103 `voices[voice_name]` raises an uncaught `KeyError`, so `synthesize`
terminates without printing anything, without returning a failure value,
without a network call, and without touching the output file. -/
theorem dangling_preset_uncaught_keyerror (t aliasName o : String) (vd : VoicesData)
    (k : String) (resp : HttpResponse) (target : String)
    (h1 : lookupStr vd.voices aliasName = none)
    (h2 : lookupStr vd.presets aliasName = some target)
    (h3 : lookupStr vd.voices target = none) :
    synthesize t aliasName o vd k resp =
      { returnValue := none, printed := [], fileWritten := none, requests := [] } := by
  have hres : resolveVoice vd aliasName = .keyErrorCrash target := by
    simp [resolveVoice, h1, h2, h3]
  simp [synthesize, hres]

/-- Claim C1, counterexample to the claim as stated: with preset
`narrator → ghost` and no voice `ghost`, `synthesize` neither reports the
condition (nothing is printed) nor returns failure (no boolean return value:
the `KeyError` escapes). -/
theorem dangling_preset_counterexample :
    (synthesize "Hello" "narrator" "out.mp3" c1Voices "key" (.success [7])).returnValue = none ∧
    (synthesize "Hello" "narrator" "out.mp3" c1Voices "key" (.success [7])).printed = [] := by
  decide

/-- Claim C1, witness for the amended theorem at a concrete input. -/
theorem dangling_preset_uncaught_keyerror_witness :
    synthesize "Hi" "narrator" "o.mp3" c1Voices "key" (.urlError "down") =
      { returnValue := none, printed := [], fileWritten := none, requests := [] } :=
  dangling_preset_uncaught_keyerror "Hi" "narrator" "o.mp3" c1Voices "key"
    (.urlError "down") "ghost" (by decide) (by decide) (by decide)

theorem get_api_key_falsy_env (ee el : Option String) (hc rc : CfgFileState)
    (ef : Option (List String)) (h : truthyOpt (pyOr ee el) = false) :
    get_api_key ee el hc rc ef = afterEnvVars hc rc ef := by
  unfold get_api_key
  cases hp : pyOr ee el with
  | none => rfl
  | some k =>
    simp only [truthyOpt, hp] at h
    by_cases hk : k = ""
    · simp [hk]
    · simp [hk] at h

/-- Claim C2 (amended): credential resolution checks the two environment
variables (Python `or`, so an empty value falls through), then the per-user
config file, then the fixed absolute config file — each accepted only when
non-empty — and finally the `.env` file, whose first `ELEVEN_API_KEY=` line
is accepted even when its value is empty; the guidance-and-exit path is
reached only when the env/config sources yield nothing truthy and no `.env`
line matches (or the file is absent). -/
theorem get_api_key_source_order (ee el : Option String) (hc rc : CfgFileState)
    (ef : Option (List String)) :
    (∀ k, pyOr ee el = some k → k ≠ "" → get_api_key ee el hc rc ef = .found k) ∧
    (∀ k, truthyOpt (pyOr ee el) = false → cfgKey hc = some k →
      get_api_key ee el hc rc ef = .found k) ∧
    (∀ k, truthyOpt (pyOr ee el) = false → cfgKey hc = none → cfgKey rc = some k →
      get_api_key ee el hc rc ef = .found k) ∧
    (∀ lines v, truthyOpt (pyOr ee el) = false → cfgKey hc = none → cfgKey rc = none →
      ef = some lines → envLookup lines = some v →
      get_api_key ee el hc rc ef = .found v) ∧
    (truthyOpt (pyOr ee el) = false → cfgKey hc = none → cfgKey rc = none →
      ef = none → get_api_key ee el hc rc ef = .missingExit missingKeyMsgs) ∧
    (∀ lines, truthyOpt (pyOr ee el) = false → cfgKey hc = none → cfgKey rc = none →
      ef = some lines → envLookup lines = none →
      get_api_key ee el hc rc ef = .missingExit missingKeyMsgs) := by
  refine ⟨?_, ?_, ?_, ?_, ?_, ?_⟩
  · intro k hp hk
    unfold get_api_key
    rw [hp]
    simp [hk]
  · intro k htr hhc
    rw [get_api_key_falsy_env ee el hc rc ef htr]
    unfold afterEnvVars
    rw [hhc]
  · intro k htr hhc hrc
    rw [get_api_key_falsy_env ee el hc rc ef htr]
    unfold afterEnvVars
    rw [hhc, hrc]
  · intro lines v htr hhc hrc hef henv
    rw [get_api_key_falsy_env ee el hc rc ef htr]
    unfold afterEnvVars
    rw [hhc, hrc, hef]
    simp [fromEnvFile, henv]
  · intro htr hhc hrc hef
    rw [get_api_key_falsy_env ee el hc rc ef htr]
    unfold afterEnvVars
    rw [hhc, hrc, hef]
    rfl
  · intro lines htr hhc hrc hef henv
    rw [get_api_key_falsy_env ee el hc rc ef htr]
    unfold afterEnvVars
    rw [hhc, hrc, hef]
    simp [fromEnvFile, henv]

/-- Claim C2, counterexample to the claim as stated: with no environment
variables, no config files, and a `.env` whose key line has an empty value,
every source is exhausted without a non-empty result, yet the resolver
returns the empty string instead of printing guidance and exiting. -/
theorem get_api_key_empty_env_line_counterexample :
    get_api_key none none .absent .absent (some ["ELEVEN_API_KEY="]) = .found "" := by
  decide

/-- Claim C2, witness: a non-empty `ELEVEN_API_KEY` environment variable wins
over a config file and a `.env` file holding different values. -/
theorem get_api_key_source_order_witness :
    get_api_key (some "envtok") (some "other") .absent (.parsed (some "cfgtok"))
      (some ["ELEVEN_API_KEY=filetok"]) = .found "envtok" :=
  (get_api_key_source_order (some "envtok") (some "other") .absent (.parsed (some "cfgtok"))
    (some ["ELEVEN_API_KEY=filetok"])).1 "envtok" (by decide) (by decide)

/-- Claim C3: a voice name absent from both the voices and the presets
mappings makes `synthesize` print the requested name and the comma-separated
list of valid names, return `False`, issue no HTTP request, and leave the
output file untouched whatever its prior state. -/
theorem synthesize_absent_name_reports_no_request (t name o : String) (vd : VoicesData)
    (k : String) (resp : HttpResponse)
    (h1 : lookupStr vd.voices name = none) (h2 : lookupStr vd.presets name = none) :
    synthesize t name o vd k resp =
      { returnValue := some false
        printed := [voiceNotFoundMsg name, availableMsg vd]
        fileWritten := none
        requests := [] } ∧
    ∀ prior, fileAfter prior (synthesize t name o vd k resp) = prior := by
  have hres : resolveVoice vd name = .notFound := by
    simp [resolveVoice, h1, h2]
  exact ⟨by simp [synthesize, hres], fun prior => by simp [fileAfter, synthesize, hres]⟩

/-- Claim C3, witness at a concrete config and unknown name. -/
theorem synthesize_absent_name_witness :
    synthesize "Hi" "bogus" "o.mp3" demoVoices "k" (.success [1, 2]) =
      { returnValue := some false
        printed := [voiceNotFoundMsg "bogus", availableMsg demoVoices]
        fileWritten := none
        requests := [] } :=
  (synthesize_absent_name_reports_no_request "Hi" "bogus" "o.mp3" demoVoices "k"
    (.success [1, 2]) (by decide) (by decide)).1

/-- Claim C4: every request body is `{text, model_id: the fixed constant,
voice_settings: {stability, similarity_boost, style, use_speaker_boost:
true}}` with the three settings defaulting to 0.75, 0.75, 0.5 when absent;
and on the spec's worked example, preset `default` resolves to `rachel`
with voice id `v1` and exactly the default values. -/
theorem synthesize_request_body_shape (t name o : String) (vd : VoicesData) (k : String)
    (resp : HttpResponse) :
    (∀ rn v, resolveVoice vd name = .found rn v →
      (synthesize t name o vd k resp).requests =
        [buildRequest k v.voice_id
          { text := t
            model_id := "eleven_multilingual_v2"
            voice_settings :=
              { stability := v.settings.stability.getD 0.75
                similarity_boost := v.settings.similarity_boost.getD 0.75
                style := v.settings.style.getD 0.5
                use_speaker_boost := true } }]) ∧
    resolveVoice demoVoices "default" = .found "rachel" demoRachel ∧
    (synthesize t "default" o demoVoices k resp).requests =
      [buildRequest k "v1"
        { text := t
          model_id := "eleven_multilingual_v2"
          voice_settings :=
            { stability := 0.75
              similarity_boost := 0.75
              style := 0.5
              use_speaker_boost := true } }] := by
  have hd : resolveVoice demoVoices "default" = .found "rachel" demoRachel := by decide
  refine ⟨?_, hd, ?_⟩
  · intro rn v h
    exact requests_of_found t name o vd k resp rn v h
  · rw [requests_of_found t "default" o demoVoices k resp "rachel" demoRachel hd]
    rfl

/-- Claim C4, witness: the general part applied to the worked example. -/
theorem synthesize_request_body_witness :
    (synthesize "Hello" "default" "o.mp3" demoVoices "k" (.success [])).requests =
      [buildRequest "k" demoRachel.voice_id
        { text := "Hello"
          model_id := "eleven_multilingual_v2"
          voice_settings :=
            { stability := demoRachel.settings.stability.getD 0.75
              similarity_boost := demoRachel.settings.similarity_boost.getD 0.75
              style := demoRachel.settings.style.getD 0.5
              use_speaker_boost := true } }] :=
  (synthesize_request_body_shape "Hello" "default" "o.mp3" demoVoices "k" (.success [])).1
    "rachel" demoRachel (by decide)

/-- Claim C5: on a 2xx response, `synthesize` writes exactly the response
body to the output path (overwriting whatever was there), prints the save
message with the size `len/1024` KB rounded to one decimal place (the
reported tenths-of-a-KB value is within half a tenth of `len*10/1024`),
and returns `True`. -/
theorem synthesize_success_writes_body (t name o : String) (vd : VoicesData) (k : String)
    (body : List Nat) (v : Voice) (hv : lookupStr vd.voices name = some v) :
    synthesize t name o vd k (.success body) =
      { returnValue := some true
        printed := [savedMsg o body.length]
        fileWritten := some body
        requests := [buildRequest k v.voice_id (buildPayload t v.settings)] } ∧
    (∀ prior, fileAfter prior (synthesize t name o vd k (.success body)) = some body) ∧
    body.length * 10 ≤ 1024 * kbTenths body.length + 512 ∧
    1024 * kbTenths body.length ≤ body.length * 10 + 512 := by
  have hres := resolveVoice_of_lookup vd name v hv
  refine ⟨by simp [synthesize, hres], fun prior => by simp [fileAfter, synthesize, hres],
    (kbTenths_le_bounds body.length).1, (kbTenths_le_bounds body.length).2⟩

/-- Claim C5, witness on a concrete three-byte body. -/
theorem synthesize_success_witness :
    synthesize "Hi" "rachel" "o.mp3" demoVoices "k" (.success [1, 2, 3]) =
      { returnValue := some true
        printed := [savedMsg "o.mp3" [1, 2, 3].length]
        fileWritten := some [1, 2, 3]
        requests := [buildRequest "k" demoRachel.voice_id (buildPayload "Hi" demoRachel.settings)] } :=
  (synthesize_success_writes_body "Hi" "rachel" "o.mp3" demoVoices "k" [1, 2, 3]
    demoRachel (by decide)).1

/-- Claim C6: on an HTTP error status, `synthesize` prints the status code
with at most the first 200 characters of the error body, returns `False`,
leaves the output file exactly as it was, and issues no further request
(exactly the one original request, no retry). -/
theorem synthesize_http_error_no_write (t name o : String) (vd : VoicesData)
    (k : String) (code : Nat) (errBody : Option String) (v : Voice)
    (hv : lookupStr vd.voices name = some v) :
    synthesize t name o vd k (.httpError code errBody) =
      { returnValue := some false
        printed := [apiErrorMsg code (errBody.getD "")]
        fileWritten := none
        requests := [buildRequest k v.voice_id (buildPayload t v.settings)] } ∧
    (∀ prior, fileAfter prior (synthesize t name o vd k (.httpError code errBody)) = prior) ∧
    (synthesize t name o vd k (.httpError code errBody)).requests.length = 1 ∧
    (∀ s : String, ((takeStr 200 s).toList).length ≤ 200) := by
  have hres := resolveVoice_of_lookup vd name v hv
  refine ⟨by simp [synthesize, hres], fun prior => by simp [fileAfter, synthesize, hres],
    by simp [synthesize, hres], ?_⟩
  intro s
  show ((s.toList.take 200).asString).toList.length ≤ 200
  have h : ((s.toList.take 200).asString).toList = s.toList.take 200 := rfl
  rw [h, List.length_take]
  exact min_le_left _ _

/-- Claim C6, witness on a concrete 401 response. -/
theorem synthesize_http_error_witness :
    synthesize "Hi" "rachel" "o.mp3" demoVoices "k" (.httpError 401 (some "Unauthorized")) =
      { returnValue := some false
        printed := [apiErrorMsg 401 "Unauthorized"]
        fileWritten := none
        requests := [buildRequest "k" demoRachel.voice_id (buildPayload "Hi" demoRachel.settings)] } :=
  (synthesize_http_error_no_write "Hi" "rachel" "o.mp3" demoVoices "k" 401
    (some "Unauthorized") demoRachel (by decide)).1

/-- Claim C7: the batch tester runs one `synthesize` call per configured
voice, in list order, never aborts (the loop always completes: the result is
`some`), its failure count is the number of voices whose call failed, its
success count is the rest, and it finishes with the printed summary line. -/
theorem test_voices_counts (vd : VoicesData) (k : String) (rs : String → HttpResponse) :
    ∃ st : TestState,
      test_voices vd k rs = some (st, summaryLine st.success st.failed) ∧
      st.failed = vd.voices.countP (fun p => !respOk (rs p.1)) ∧
      st.success = vd.voices.length - st.failed ∧
      st.calls.length = vd.voices.length := by
  have h : ∀ p ∈ vd.voices, (lookupStr vd.voices p.1).isSome = true :=
    fun p hp => lookupStr_isSome_of_mem vd.voices p hp
  have hrun := runVoices_spec vd k rs vd.voices ⟨[], 0, 0⟩ h
  refine ⟨⟨vd.voices.map (fun p => (sampleSentence p.2, p.1, "samples/" ++ p.1 ++ ".mp3")),
          vd.voices.countP (fun p => respOk (rs p.1)),
          vd.voices.countP (fun p => !respOk (rs p.1))⟩, ?_, rfl, ?_, ?_⟩
  · simp [test_voices, hrun]
  · have hsum := countP_add_countP_not (fun p => respOk (rs p.1)) vd.voices
    simp only []
    omega
  · simp

/-- Claim C8: each batch call uses the sample sentence selected by the first
two characters of the voice's declared language (an undeclared language
yields code `en`), with the English sample as fallback when no sample
matches the code, and the output path `samples/<voice-name>.mp3`. -/
theorem test_voices_language_and_paths (vd : VoicesData) (k : String)
    (rs : String → HttpResponse) :
    (∃ st s, test_voices vd k rs = some (st, s) ∧
      st.calls = vd.voices.map
        (fun p => (sampleSentence p.2, p.1, "samples/" ++ p.1 ++ ".mp3"))) ∧
    (∀ vid stg, langCode ⟨vid, none, stg⟩ = "en") ∧
    (∀ v : Voice, lookupStr test_texts (langCode v) = none →
      sampleSentence v = englishSample) ∧
    (∀ v txt, lookupStr test_texts (langCode v) = some txt → sampleSentence v = txt) := by
  have h : ∀ p ∈ vd.voices, (lookupStr vd.voices p.1).isSome = true :=
    fun p hp => lookupStr_isSome_of_mem vd.voices p hp
  have hrun := runVoices_spec vd k rs vd.voices ⟨[], 0, 0⟩ h
  refine ⟨⟨⟨vd.voices.map (fun p => (sampleSentence p.2, p.1, "samples/" ++ p.1 ++ ".mp3")),
            vd.voices.countP (fun p => respOk (rs p.1)),
            vd.voices.countP (fun p => !respOk (rs p.1))⟩,
           summaryLine (vd.voices.countP (fun p => respOk (rs p.1)))
             (vd.voices.countP (fun p => !respOk (rs p.1))), ?_, ?_⟩, ?_, ?_, ?_⟩
  · simp [test_voices, hrun]
  · rfl
  · intro vid stg
    show takeStr 2 "en-US" = "en"
    decide
  · intro v hv
    simp [sampleSentence, hv]
  · intro v txt hv
    simp [sampleSentence, hv]

/-- Claim C8, witness: a `pl-PL` voice has no canned sample, so the English
sample is selected. -/
theorem test_voices_language_witness :
    sampleSentence demoPolish = englishSample :=
  (test_voices_language_and_paths ⟨[("lena", demoPolish)], []⟩ "k"
    (fun _ => .success [])).2.2.1 demoPolish (by decide)

/-- Claim C9: a name present in the voices mapping shadows any preset of the
same name — `synthesize` resolves it to the voices entry directly, and the
request it issues is built from that entry, never from the preset's target. -/
theorem voices_mapping_shadows_presets (vd : VoicesData) (name target : String) (v : Voice)
    (hv : lookupStr vd.voices name = some v)
    (_hp : lookupStr vd.presets name = some target) :
    resolveVoice vd name = .found name v ∧
    ∀ t o k resp, (synthesize t name o vd k resp).requests =
      [buildRequest k v.voice_id (buildPayload t v.settings)] := by
  have h := resolveVoice_of_lookup vd name v hv
  exact ⟨h, fun t o k resp => requests_of_found t name o vd k resp name v h⟩

/-- Claim C9, witness: `dual` resolves to its voices entry, not through the
preset redirecting to `other`. -/
theorem voices_mapping_shadows_presets_witness :
    resolveVoice c9Voices "dual" =
      .found "dual" ⟨"vd1", some "en-US", ⟨none, none, none⟩⟩ :=
  (voices_mapping_shadows_presets c9Voices "dual" "other"
    ⟨"vd1", some "en-US", ⟨none, none, none⟩⟩ (by decide) (by decide)).1

/-- Claim C10: in the `.env` fallback, the first line starting with
`ELEVEN_API_KEY=` is accepted even when its value is empty after stripping —
the resolver returns the empty string instead of reaching the
credential-missing exit — whereas an empty value from the environment
variables or a config file is skipped. -/
theorem env_file_accepts_empty_value (ee el : Option String) (hc rc : CfgFileState)
    (lines : List String)
    (h1 : truthyOpt (pyOr ee el) = false) (h2 : cfgKey hc = none) (h3 : cfgKey rc = none)
    (h4 : envLookup lines = some "") :
    get_api_key ee el hc rc (some lines) = .found "" ∧
    (∀ l rest, startsWithStr "ELEVEN_API_KEY=" l = true →
      envLookup (l :: rest) = some (stripQuotes (pyStrip (dropStr 15 l)))) ∧
    cfgKey (.parsed (some "")) = none ∧
    truthyOpt (some "") = false := by
  refine ⟨?_, ?_, by decide, by decide⟩
  · rw [get_api_key_falsy_env ee el hc rc (some lines) h1]
    unfold afterEnvVars
    rw [h2, h3]
    simp [fromEnvFile, h4]
  · intro l rest hl
    unfold envLookup
    rw [hl]
    simp

/-- Claim C10, witness: a `.env` holding `ELEVEN_API_KEY=""` yields the empty
string as the credential. -/
theorem env_file_accepts_empty_value_witness :
    get_api_key none none .absent .absent (some ["ELEVEN_API_KEY=\"\""]) = .found "" :=
  (env_file_accepts_empty_value none none .absent .absent ["ELEVEN_API_KEY=\"\""]
    (by decide) (by decide) (by decide) (by decide)).1
